import Mathlib

/-!
Verification of `manage_images.py` (fuzzer-build-containers).

The Python module manages container images keyed by compiler toolchain.  It is
embedded here at two levels of granularity:

* an *environment level*, where each method is a pure function of the
  `ProcResult`s produced by the external subprocess calls it performs (this is
  the faithful straight-line translation of the source and lets us model races
  such as an image disappearing between lookup and inspection), and
* a *world level*, where the external container engine is modelled as a
  deterministic state (`World`) and the same source lines are translated with
  the external calls interpreted against that state.  This layer expresses
  sequencing properties (idempotent build, batch behaviour).

Python string operations (`str.strip`, `str.split`, `in`, `str.replace`,
`str.split(sep, 1)`) are modelled as structurally recursive functions on the
character list of a `String`, so that every definition evaluates by `rfl` /
`decide`.
-/

namespace ManageImages

/-- Model of Python `str.strip()` (ASCII whitespace, which is all that occurs
in the outputs handled by the tool). -/
def pyStrip (s : String) : String :=
  ⟨((s.data.dropWhile Char.isWhitespace).reverse.dropWhile Char.isWhitespace).reverse⟩

/-- Helper for `pySplitWs`: accumulates the current word (reversed) while
scanning the character list. -/
def wordsAux : List Char → List Char → List (List Char)
  | cur, [] => if cur = [] then [] else [cur.reverse]
  | cur, c :: cs =>
    if c.isWhitespace then
      if cur = [] then wordsAux [] cs else cur.reverse :: wordsAux [] cs
    else wordsAux (c :: cur) cs

/-- Model of Python `str.split()` with no arguments: split on runs of
whitespace, dropping empty fields. -/
def pySplitWs (s : String) : List String :=
  (wordsAux [] s.data).map (fun l => ⟨l⟩)

/-- Does `needle` start `hay`? (on character lists) -/
def prefixOfL : List Char → List Char → Bool
  | [], _ => true
  | _ :: _, [] => false
  | a :: as, b :: bs => a = b && prefixOfL as bs

/-- Does `needle` occur contiguously in `hay`? (on character lists) -/
def containsL (needle : List Char) : List Char → Bool
  | [] => prefixOfL needle []
  | c :: cs => prefixOfL needle (c :: cs) || containsL needle cs

/-- Model of the Python operator `needle in hay` on strings. -/
def pyIn (needle hay : String) : Bool :=
  containsL needle.data hay.data

/-- Split a character list at the first occurrence of `sep`. -/
def breakAt (sep : Char) : List Char → Option (List Char × List Char)
  | [] => none
  | c :: cs =>
    if c = sep then some ([], cs)
    else (breakAt sep cs).map (fun p => (c :: p.1, p.2))

/-- Model of Python `s.split(sep, 1)` followed by two-element unpacking, as in
`compiler.split('-', 1)`.  Every key of the metadata table contains the
separator, so the no-separator case (a Python `ValueError`) is unreachable. -/
def pySplit1 (s : String) (sep : Char) : String × String :=
  match breakAt sep s.data with
  | none => (s, "")
  | some p => (⟨p.1⟩, ⟨p.2⟩)

/-- Model of Python `s.replace(',', ' ')` used to normalise the `--deps`
package list. -/
def commaToSpace (s : String) : String :=
  ⟨s.data.map (fun c => if c = ',' then ' ' else c)⟩

/-- Python truthiness of an optional string attribute (`None` and `''` are
falsy). -/
def truthy : Option String → Bool
  | none => false
  | some s => s ≠ ""

/-- Table `COMPILER_METADATA` (src/manage_images.py lines 16-41): maps a compiler
identifier to its Ubuntu base version. -/
def COMPILER_METADATA : List (String × String) :=
  [("clang-5",  "16.04"),
   ("clang-6",  "16.04"),
   ("clang-7",  "18.04"),
   ("clang-8",  "18.04"),
   ("clang-9",  "20.04"),
   ("clang-10", "20.04"),
   ("clang-11", "20.04"),
   ("clang-12", "22.04"),
   ("clang-13", "22.04"),
   ("clang-14", "22.04"),
   ("clang-15", "24.04"),
   ("clang-16", "24.04"),
   ("clang-17", "24.04"),
   ("gcc-4.9",  "16.04"),
   ("gcc-5",    "16.04"),
   ("gcc-6",    "18.04"),
   ("gcc-7",    "18.04"),
   ("gcc-8",    "20.04"),
   ("gcc-9",    "20.04"),
   ("gcc-10",   "20.04"),
   ("gcc-11",   "22.04"),
   ("gcc-12",   "22.04"),
   ("gcc-13",   "24.04"),
   ("gcc-14",   "24.04")]

/-- Lookup in `COMPILER_METADATA` (Python `compiler in COMPILER_METADATA` /
`COMPILER_METADATA[compiler]`). -/
def lookupMeta (c : String) : Option String :=
  (COMPILER_METADATA.find? (fun p => p.1 = c)).map (fun p => p.2)

/-- List `SUPPORTED_COMPILERS` (line 43). -/
def SUPPORTED_COMPILERS : List String :=
  COMPILER_METADATA.map (fun p => p.1) ++ ["all"]

/-- Result of one subprocess invocation, as observed by the Python code. -/
structure ProcResult where
  returncode : Int
  stdout : String
  stderr : String
deriving Repr, DecidableEq

/-- Diagnostic standing for Python's uncaught `subprocess.CalledProcessError`
raised by `subprocess.run(cmd, check=True)` on a non-zero exit. -/
def cpeMsg (cmd : List String) : String :=
  "CalledProcessError: " ++ String.intercalate " " cmd

/-- Embeds `ContainerImage.find_id` (lines 150-160) at the environment level: `out`
is the result of the `images <tag> --format \x7b\x7b.ID\x7d\x7d` query
(`check=False`, `capture_output=True`).  Non-zero exit is `sys.exit` with the
engine's stderr; otherwise the stripped stdout is returned, reduced to its
first whitespace-delimited token when non-empty (Podman duplicate-result
workaround). -/
def find_id (runtime : String) (out : ProcResult) : Except String String :=
  if out.returncode ≠ 0 then
    .error s!"[-] ERROR: {runtime} returned {out.returncode}:\n{out.stderr}"
  else
    let image_id := pyStrip out.stdout
    if image_id ≠ "" then .ok ((pySplitWs image_id).headD "")
    else .ok image_id

/-- The argv of the `images` query issued by `find_id` (line 152). -/
def find_cmd (runtime_cmd : List String) (tag : String) : List String :=
  runtime_cmd ++ ["images", tag, "--format", "\x7b\x7b.ID\x7d\x7d"]

/-- Embeds `ContainerImage.identify_runtime_cmd` (lines 162-174) at the environment
level.  `installed` is whether the engine binary exists (its absence makes
`subprocess.run` raise `FileNotFoundError`); `out` is the result of the single
`<runtime> ps` probe.  Returns the resolved command prefix (or the `sys.exit`
diagnostic) together with the list of commands actually executed. -/
def identify_runtime_cmd (runtime : String) (installed : Bool) (out : ProcResult) :
    Except String (List String) × List (List String) :=
  if ¬installed then
    (.error "[-] ERROR: The container runtime is not installed", [])
  else
    let cmd := [runtime, "ps"]
    let joined := String.intercalate " " cmd
    if out.returncode = 0 then (.ok [runtime], [cmd])
    else if runtime = "docker" ∧ pyIn "permission denied" out.stderr then
      (.ok ["sudo", runtime], [cmd])
    else
      (.error s!"[-] ERROR: Testing \"{joined}\" gives unknown error:\n{out.stderr}", [cmd])

/-- External results consumed by `ContainerImage.rm`: the inspect query, the
containers-by-ancestor query, the exit code of `rmi -f` (when reached), and
the final `find_id` re-resolution. -/
structure RmEnv where
  inspectRes : ProcResult
  psRes : ProcResult
  rmiRc : Int
  findAfterRes : ProcResult
deriving Repr, DecidableEq

/-- Outcome of `ContainerImage.rm` on a non-aborting path. -/
structure RmResult where
  newId : String
  printed : List String
  issued : List (List String)
deriving Repr, DecidableEq

/-- Embeds `ContainerImage.rm` (lines 121-148) at the environment level.  `id` is
`self.id` on entry (set by `__init__` via `find_id`); `env` supplies the
results of the external calls, which allows modelling the race in which the
image vanishes between the tag lookup and the inspection.  `.error` stands
for an uncaught exception or failed assertion aborting the process;
`issued` records the argv of every subprocess actually run by `rm`. -/
def ContainerImage.rm (runtime_cmd : List String) (runtime compiler tag id : String)
    (env : RmEnv) : Except String RmResult :=
  if id = "" then
    .ok ⟨id, [s!"\nNo container image for {compiler}"], []⟩
  else
    let removing := s!"\nRemoving container image {id} for {compiler}"
    let get_full_id_cmd := runtime_cmd ++ ["inspect", id, "--format", "\x7b\x7b.ID\x7d\x7d"]
    if env.inspectRes.returncode ≠ 0 then .error (cpeMsg get_full_id_cmd)
    else
      let full_id := pyStrip env.inspectRes.stdout
      if full_id = "" then
        .error s!"AssertionError: [-] ERROR: Looks like the image {id} is already removed"
      else
        let get_containers_cmd :=
          runtime_cmd ++ ["ps", "-a", "--filter", s!"ancestor={full_id}",
                          "--format", "\x7b\x7b.ID\x7d\x7d"]
        if env.psRes.returncode ≠ 0 then .error (cpeMsg get_containers_cmd)
        else
          let running_containers := pyStrip env.psRes.stdout
          if running_containers ≠ "" then
            match find_id runtime env.findAfterRes with
            | .error e => .error e
            | .ok nid =>
              .ok ⟨nid,
                   [removing,
                    s!"[!] WARNING: Removing the image {id} failed, some containers use it"],
                   [get_full_id_cmd, get_containers_cmd, find_cmd runtime_cmd tag]⟩
          else
            let rmi_cmd := runtime_cmd ++ ["rmi", "-f", id]
            if env.rmiRc ≠ 0 then .error (cpeMsg rmi_cmd)
            else
              match find_id runtime env.findAfterRes with
              | .error e => .error e
              | .ok nid =>
                .ok ⟨nid, [removing],
                     [get_full_id_cmd, get_containers_cmd, rmi_cmd, find_cmd runtime_cmd tag]⟩

/-! ## World-level model

The external container engine is modelled as a deterministic state.  Engine
replies are structured (lists of ids rather than the newline-joined text the
real engine prints); the string-level parsing of those replies is the
environment-level `find_id` above, verified separately.  Engine queries in
this model succeed (exit 0); arbitrary failing replies are covered by the
environment-level functions. -/

/-- One image known to the engine: its tag, the short id reported by
`images --format`, and the canonical full id reported by `inspect`. -/
structure ImageRec where
  tag : String
  shortId : String
  fullId : String
deriving Repr, DecidableEq

/-- The container engine's state plus the facts about the host environment
that the Runtime Adapter probes: `containers` maps container id to ancestor
full image id; `buildOk` says whether an external `build` of a tag succeeds;
`fresh` yields the (short, full) id the engine assigns to a newly built tag;
`installed`/`psRc`/`psErr` describe the `<engine> ps` probe. -/
structure World where
  images : List ImageRec
  containers : List (String × String)
  buildOk : String → Bool
  fresh : String → String × String
  installed : Bool
  psRc : Int
  psErr : String

/-- Short ids of the images matching `tag`, in engine listing order (the
lines of `images <tag> --format`). -/
def World.imageIds (w : World) (tag : String) : List String :=
  (w.images.filter (fun i => i.tag = tag)).map (fun i => i.shortId)

/-- Models `find_id` against the engine state: the first listed id for the tag, or
the empty string when there is none (lines 150-160; the query exits 0 in this
model, and the first token of its output is the head of the id list). -/
def find_idW (w : World) (tag : String) : String :=
  (w.imageIds tag).headD ""

/-- Query `inspect <id> --format`: the full id of the image with the given short
id; `none` models the non-zero exit (a `CalledProcessError` under
`check=True`) when no such image exists. -/
def inspectW (w : World) (id : String) : Option String :=
  (w.images.find? (fun i => i.shortId = id)).map (fun i => i.fullId)

/-- Query `ps -a --filter ancestor=<fullId> --format`: ids of containers whose
ancestor is the given full image id. -/
def World.containersOf (w : World) (fullId : String) : List String :=
  (w.containers.filter (fun c => c.2 = fullId)).map (fun c => c.1)

/-- Effect of `rmi -f <id>`: the image with that short id disappears. -/
def World.rmi (w : World) (id : String) : World :=
  { w with images := w.images.filter (fun i => ¬i.shortId = id) }

/-- Effect of a successful `build -t <tag>`: the engine registers a fresh
image under the tag. -/
def World.addBuilt (w : World) (tag : String) : World :=
  { w with images := ⟨tag, (w.fresh tag).1, (w.fresh tag).2⟩ :: w.images }

/-- Runtime commands, for recording which external invocations an operation
issues. -/
inductive EngCmd where
  | probe
  | imagesQ (tag : String)
  | buildC (args : List String)
  | inspectQ (id : String)
  | psAncestorQ (fullId : String)
  | rmiC (id : String)
  | listAllQ
deriving Repr, DecidableEq

/-- Host-environment facts read by `build` via `os`/`pwd`/`grp`. -/
structure OsInfo where
  uname : String
  gname : String
  uid : Nat
  gid : Nat
deriving Repr, DecidableEq

/-- The instance attributes set by `ContainerImage.__init__` (lines 79-83). -/
structure CImage where
  compiler : String
  compiler_type : String
  compiler_version : String
  ubuntu : String
  tag : String
  id : String
deriving Repr, DecidableEq

/-- The image tag derived from the fuzzer name and compiler (line 82). -/
def tagOf (fuzzer compiler : String) : String :=
  s!"fuzzer-build-container:{fuzzer}-{compiler}"

/-- Embeds `ContainerImage.__init__` (lines 72-83) at the world level, with the
runtime command prefix already resolved (class attribute cache, lines
76-77).  An unknown compiler is `sys.exit`. -/
def cImageInit (fuzzer : String) (w : World) (compiler : String) : Except String CImage :=
  match lookupMeta compiler with
  | none => .error s!"[-] ERROR: Unknown compiler \"{compiler}\""
  | some ubu =>
    let tv := pySplit1 compiler '-'
    let tag := tagOf fuzzer compiler
    .ok ⟨compiler, tv.1, tv.2, ubu, tag, find_idW w tag⟩

/-- The `build_args` list assembled by `ContainerImage.build` (lines
93-116, without the leading runtime prefix and trailing build directory). -/
def buildArgsFor (os : OsInfo) (img : CImage) (additional_deps : Option String)
    (quiet : Bool) : List String :=
  ["build",
   "--build-arg", s!"UBUNTU_VERSION={img.ubuntu}",
   "--build-arg", s!"UNAME={os.uname}",
   "--build-arg", s!"GNAME={os.gname}",
   "--build-arg", s!"UID={os.uid}",
   "--build-arg", s!"GID={os.gid}"] ++
  (if img.compiler_type = "gcc" then ["--build-arg", s!"GCC_VERSION={img.compiler_version}"]
   else ["--build-arg", s!"CLANG_VERSION={img.compiler_version}"]) ++
  (match additional_deps with
   | some d => if d ≠ "" then ["--build-arg", s!"ADDITIONAL_DEPS={d}"] else []
   | none => []) ++
  ["-t", img.tag] ++
  (if quiet then ["-q"] else [])

/-- Outcome of a per-compiler operation at the world level. -/
structure OpRes where
  world : World
  img : CImage
  printed : List String
  issued : List EngCmd

/-- Embeds `ContainerImage(compiler)` followed by `.build()` (lines 85-119) at the
world level: no-op when the tag already resolves to an id; otherwise the
build command runs (`check=True`: non-zero exit aborts) and the id is
re-resolved. -/
def buildOpW (os : OsInfo) (fuzzer : String) (quiet : Bool) (deps : Option String)
    (w : World) (compiler : String) : Except String OpRes :=
  match cImageInit fuzzer w compiler with
  | .error e => .error e
  | .ok img =>
    if img.id ≠ "" then
      .ok ⟨w, img,
           [s!"\nThe container image for {fuzzer}-{compiler} exists: {img.id}"],
           [.imagesQ img.tag]⟩
    else
      let bargs := buildArgsFor os img deps quiet
      if w.buildOk img.tag then
        let w1 := w.addBuilt img.tag
        .ok ⟨w1, { img with id := find_idW w1 img.tag },
             [s!"\nBuilding container image for {compiler} (Ubuntu {img.ubuntu})"] ++
               (if quiet then ["[!] INFO: Quiet mode, please wait..."] else []),
             [.imagesQ img.tag, .buildC bargs, .imagesQ img.tag]⟩
      else .error (cpeMsg (bargs ++ ["."]))

/-- Embeds `ContainerImage(compiler)` followed by `.rm()` (lines 121-148) at the
world level. -/
def rmOpW (fuzzer : String) (w : World) (compiler : String) : Except String OpRes :=
  match cImageInit fuzzer w compiler with
  | .error e => .error e
  | .ok img =>
    if img.id = "" then
      .ok ⟨w, img, [s!"\nNo container image for {compiler}"], [.imagesQ img.tag]⟩
    else
      let removing := s!"\nRemoving container image {img.id} for {compiler}"
      match inspectW w img.id with
      | none => .error (cpeMsg ["inspect", img.id])
      | some full_id =>
        if full_id = "" then
          .error s!"AssertionError: [-] ERROR: Looks like the image {img.id} is already removed"
        else
          if w.containersOf full_id ≠ [] then
            .ok ⟨w, { img with id := find_idW w img.tag },
                 [removing,
                  s!"[!] WARNING: Removing the image {img.id} failed, some containers use it"],
                 [.imagesQ img.tag, .inspectQ img.id, .psAncestorQ full_id, .imagesQ img.tag]⟩
          else
            let w1 := w.rmi img.id
            .ok ⟨w1, { img with id := find_idW w1 img.tag }, [removing],
                 [.imagesQ img.tag, .inspectQ img.id, .psAncestorQ full_id, .rmiC img.id,
                  .imagesQ img.tag]⟩

/-- The compiler list iterated by `build_images` / `remove_images` (lines
179-182 and 191-194). -/
def compilers_for (needed : String) : List String :=
  if needed = "all" then COMPILER_METADATA.map (fun p => p.1) else [needed]

/-- Loop body of `build_images` (lines 184-186): returns the compilers
actually attempted, the runtime commands issued, and either the final world
or the abort diagnostic (an exception inside the loop propagates, ending the
batch). -/
def build_imagesAux (os : OsInfo) (fuzzer : String) (quiet : Bool) (deps : Option String) :
    List String → World → List String × List EngCmd × Except String World
  | [], w => ([], [], .ok w)
  | c :: cs, w =>
    match buildOpW os fuzzer quiet deps w c with
    | .error e => ([c], [], .error e)
    | .ok r =>
      let rest := build_imagesAux os fuzzer quiet deps cs r.world
      (c :: rest.1, r.issued ++ rest.2.1, rest.2.2)

/-- Embeds `build_images` (lines 177-186). -/
def build_images (os : OsInfo) (fuzzer : String) (quiet : Bool) (deps : Option String)
    (needed : String) (w : World) : List String × List EngCmd × Except String World :=
  build_imagesAux os fuzzer quiet deps (compilers_for needed) w

/-- Loop body of `remove_images` (lines 196-201): additionally accumulates
`fail_cnt` (incremented when `image.id` is still truthy after `rm`) and the
per-compiler re-resolved ids. -/
def remove_imagesAux (fuzzer : String) :
    List String → World → List String × List EngCmd × Except String (World × Nat × List String)
  | [], w => ([], [], .ok (w, 0, []))
  | c :: cs, w =>
    match rmOpW fuzzer w c with
    | .error e => ([c], [], .error e)
    | .ok r =>
      let rest := remove_imagesAux fuzzer cs r.world
      (c :: rest.1, r.issued ++ rest.2.1,
       match rest.2.2 with
       | .error e => .error e
       | .ok p => .ok (p.1, (if r.img.id ≠ "" then 1 else 0) + p.2.1, r.img.id :: p.2.2))

/-- Embeds `remove_images` (lines 189-204), including the final aggregate warning
printed when `fail_cnt` is non-zero. -/
def remove_images (fuzzer : String) (needed : String) (w : World) :
    (List String × List EngCmd × Except String (World × Nat × List String)) × List String :=
  let r := remove_imagesAux fuzzer (compilers_for needed) w
  (r,
   match r.2.2 with
   | .ok p =>
     if p.2.1 ≠ 0 then
       [s!"\n[!] WARNING: failed to remove {p.2.1} container image(s), see the log above"]
     else []
   | .error _ => [])

/-- Embeds `identify_runtime_cmd` / `ensure_runtime_cmd` against the world's probe
facts (lines 162-174 and 207-221). -/
def identifyW (runtime : String) (w : World) : Except String (List String) :=
  if !w.installed then .error "[-] ERROR: The container runtime is not installed"
  else if w.psRc = 0 then .ok [runtime]
  else if runtime = "docker" ∧ pyIn "permission denied" w.psErr then .ok ["sudo", runtime]
  else .error s!"[-] ERROR: Testing the probe gives unknown error:\n{w.psErr}"

/-- The namespace of the `argparse` result consumed by `main` (lines
277 onward).  `build`/`remove`/`fuzzer`/`deps` are `None` when the flag is
absent. -/
structure ParsedArgs where
  docker : Bool
  podman : Bool
  list : Bool
  build : Option String
  quiet : Bool
  remove : Option String
  fuzzer : Option String
  deps : Option String
deriving Repr, DecidableEq

/-- argparse's handling of the optional-value flags `--build` / `--remove`
as configured at lines 260-270 (`nargs` optional, const `'all'`): the flag
with a value yields that value, the flag without a value yields `"all"`, an
absent flag yields `None`. -/
def parseOptFlag (given : Bool) (value : Option String) : Option String :=
  if given then some (value.getD "all") else none

/-- Outcome of `main`: how the process exits (`.error msg` for
`sys.exit(msg)` or an uncaught exception, `.ok n` for exit code `n`) and the
runtime commands issued along the way (commands issued before an abort
inside a batch are not tracked; no claim reads them). -/
structure MainOut where
  result : Except String Nat
  issued : List EngCmd

/-- The engine selected by the `--docker` / `--podman` flags (lines
279-290), Docker by default. -/
def runtimeOf (args : ParsedArgs) : String :=
  if args.docker then "docker" else if args.podman then "podman" else "docker"

/-- The `additional_deps` class attribute: set only when `--deps` is truthy,
with commas normalised to spaces (lines 315-319). -/
def depsOf (args : ParsedArgs) : Option String :=
  if truthy args.deps then args.deps.map commaToSpace else none

/-- Embeds `main` (lines 251-333): flag validation in source order, then dispatch
to `list_all_images` / `build_images` / `remove_images` (each of which first
resolves the runtime prefix via the `ps` probe, then runs, then lists). -/
def mainW (os : OsInfo) (args : ParsedArgs) (w : World) : MainOut :=
  if args.podman && args.docker then
    ⟨.error "[-] ERROR: Multiple container engines specified", []⟩
  else if !(args.list || truthy args.build || truthy args.remove) then
    ⟨.ok 1, []⟩
  else if (if args.list then 1 else 0) + (if truthy args.build then 1 else 0) +
          (if truthy args.remove then 1 else 0) > 1 then
    ⟨.error "[-] ERROR: Invalid combination of options", []⟩
  else if truthy args.build && !truthy args.fuzzer then
    ⟨.error "[-] ERROR: --fuzzer is required for --build operation", []⟩
  else if truthy args.remove && !truthy args.fuzzer then
    ⟨.error "[-] ERROR: --fuzzer is required for --remove operation", []⟩
  else if args.quiet && !truthy args.build then
    ⟨.error "[-] ERROR: \"--quiet\" should be used only with the \"--build\" option", []⟩
  else if truthy args.deps && !truthy args.build then
    ⟨.error "[-] ERROR: \"--deps\" should be used only with the \"--build\" option", []⟩
  else if args.list then
    match identifyW (runtimeOf args) w with
    | .error e => ⟨.error e, [.probe]⟩
    | .ok _ => ⟨.ok 0, [.probe, .listAllQ]⟩
  else if truthy args.build then
    match identifyW (runtimeOf args) w with
    | .error e => ⟨.error e, [.probe]⟩
    | .ok _ =>
      let r := build_images os (args.fuzzer.getD "") args.quiet (depsOf args)
        (args.build.getD "") w
      match r.2.2 with
      | .error e => ⟨.error e, [.probe] ++ r.2.1⟩
      | .ok _ => ⟨.ok 0, [.probe] ++ r.2.1 ++ [.listAllQ]⟩
  else
    match identifyW (runtimeOf args) w with
    | .error e => ⟨.error e, [.probe]⟩
    | .ok _ =>
      let r := (remove_images (args.fuzzer.getD "") (args.remove.getD "") w).1
      match r.2.2 with
      | .error e => ⟨.error e, [.probe] ++ r.2.1⟩
      | .ok _ => ⟨.ok 0, [.probe] ++ r.2.1 ++ [.listAllQ]⟩

/-- Recogniser for build invocations in a command trace. -/
def isBuildC : EngCmd → Bool
  | .buildC _ => true
  | _ => false

/-- Is this `Except` outcome an abort (`sys.exit` with a message or an
uncaught exception)? -/
def isError {α : Type} : Except String α → Bool
  | .error _ => true
  | .ok _ => false

/-- Recogniser for force-remove invocations in a command trace. -/
def isRmiC : EngCmd → Bool
  | .rmiC _ => true
  | _ => false

example : pyStrip "  ab c \n" = "ab c" := rfl
example : pySplitWs " sha1  sha1\n" = ["sha1", "sha1"] := rfl
example : pyIn "permission denied" "got permission denied while trying" = true := rfl
example : pyIn "permission denied" "no such file" = false := rfl
example : pySplit1 "gcc-4.9" '-' = ("gcc", "4.9") := rfl
example : commaToSpace "a,b,c" = "a b c" := rfl
example : find_id "docker" ⟨0, "abc123 abc123\n", ""⟩ = .ok "abc123" := rfl
example : identify_runtime_cmd "docker" true ⟨1, "", "x permission denied y"⟩ =
    (.ok ["sudo", "docker"], [["docker", "ps"]]) := rfl
example : ContainerImage.rm ["docker"] "docker" "gcc-12" "t" "abc" ⟨⟨0, "\n", ""⟩, ⟨0, "", ""⟩, 0, ⟨0, "", ""⟩⟩ =
    .error "AssertionError: [-] ERROR: Looks like the image abc is already removed" := rfl

/-- C8: image-ID lookup by tag returns the first whitespace-delimited token of
the engine query's output when the (stripped) output is non-empty, returns the
empty string when it is empty, and is a fatal process exit carrying the
engine's stderr as diagnostic whenever the query exits non-zero. -/
theorem C8_find_id_spec (runtime : String) (out : ProcResult) :
    (out.returncode ≠ 0 →
      find_id runtime out =
        .error s!"[-] ERROR: {runtime} returned {out.returncode}:\n{out.stderr}") ∧
    (out.returncode = 0 → pyStrip out.stdout = "" → find_id runtime out = .ok "") ∧
    (out.returncode = 0 → pyStrip out.stdout ≠ "" →
      find_id runtime out = .ok ((pySplitWs (pyStrip out.stdout)).headD "")) := by
  refine ⟨fun h => by simp [find_id, h], fun h he => by simp [find_id, h, he],
    fun h hne => by simp [find_id, h, hne]⟩

/-- Witness for C8 at a duplicated-output query result. -/
theorem C8_witness :
    find_id "docker" ⟨0, " abc123 abc123\n", ""⟩ = .ok "abc123" := by
  have h := (C8_find_id_spec "docker" ⟨0, " abc123 abc123\n", ""⟩).2.2 rfl (by decide)
  exact h.trans rfl

/-- C7: when the compiler's tag resolves to no image id, `rm` is a no-op: it
reports nothing-to-remove, and the only runtime command issued is the tag
lookup performed at construction — no inspect, container query, or
force-remove command is issued. -/
theorem C7_rm_absent_noop (fuzzer : String) (w : World) (compiler : String)
    (hc : (lookupMeta compiler).isSome)
    (habs : find_idW w (tagOf fuzzer compiler) = "") :
    ∃ r, rmOpW fuzzer w compiler = .ok r ∧
      r.world = w ∧
      r.printed = [s!"\nNo container image for {compiler}"] ∧
      r.issued = [.imagesQ (tagOf fuzzer compiler)] ∧
      (∀ i, EngCmd.inspectQ i ∉ r.issued) ∧
      (∀ f, EngCmd.psAncestorQ f ∉ r.issued) ∧
      (∀ i, EngCmd.rmiC i ∉ r.issued) := by
  obtain ⟨u, hu⟩ := Option.isSome_iff_exists.mp hc
  have h : rmOpW fuzzer w compiler =
      .ok ⟨w, ⟨compiler, (pySplit1 compiler '-').1, (pySplit1 compiler '-').2, u,
               tagOf fuzzer compiler, find_idW w (tagOf fuzzer compiler)⟩,
           [s!"\nNo container image for {compiler}"],
           [.imagesQ (tagOf fuzzer compiler)]⟩ := by
    simp [rmOpW, cImageInit, hu, habs]
  exact ⟨_, h, rfl, rfl, rfl, by simp, by simp, by simp⟩

/-- Witness for C7: a world holding no image for the tag. -/
theorem C7_witness :
    ∃ r, rmOpW "syzkaller" ⟨[], [], fun _ => true, fun _ => ("a", "b"), true, 0, ""⟩ "gcc-12" =
        .ok r ∧
      r.world = ⟨[], [], fun _ => true, fun _ => ("a", "b"), true, 0, ""⟩ ∧
      r.printed = ["\nNo container image for gcc-12"] ∧
      r.issued = [.imagesQ (tagOf "syzkaller" "gcc-12")] ∧
      (∀ i, EngCmd.inspectQ i ∉ r.issued) ∧
      (∀ f, EngCmd.psAncestorQ f ∉ r.issued) ∧
      (∀ i, EngCmd.rmiC i ∉ r.issued) :=
  C7_rm_absent_noop "syzkaller" ⟨[], [], fun _ => true, fun _ => ("a", "b"), true, 0, ""⟩
    "gcc-12" (by decide) rfl

/-- C6: for every supported compiler identifier, the Ubuntu base version
recorded at construction and passed as the UBUNTU_VERSION build argument is
exactly the static metadata table's value for that identifier; in particular
gcc-12 maps to 22.04 and clang-9 maps to 20.04. -/
theorem C6_ubuntu_from_table :
    (∀ compiler u fuzzer w img, lookupMeta compiler = some u →
        cImageInit fuzzer w compiler = .ok img →
        img.ubuntu = u ∧
        ∀ os deps quiet, s!"UBUNTU_VERSION={u}" ∈ buildArgsFor os img deps quiet) ∧
    lookupMeta "gcc-12" = some "22.04" ∧ lookupMeta "clang-9" = some "20.04" := by
  refine ⟨?_, rfl, rfl⟩
  intro compiler u fuzzer w img hu hi
  rw [cImageInit, hu] at hi
  cases hi
  refine ⟨rfl, ?_⟩
  intro os deps quiet
  simp [buildArgsFor]

/-- Witness for C6 at gcc-12. -/
theorem C6_witness :
    "UBUNTU_VERSION=22.04" ∈
      buildArgsFor ⟨"user", "group", 1000, 1000⟩
        ⟨"gcc-12", (pySplit1 "gcc-12" '-').1, (pySplit1 "gcc-12" '-').2, "22.04",
         tagOf "syzkaller" "gcc-12", ""⟩ none false := by
  have h := (C6_ubuntu_from_table).1 "gcc-12" "22.04" "syzkaller"
      ⟨[], [], fun _ => true, fun _ => ("a", "b"), true, 0, ""⟩
      ⟨"gcc-12", (pySplit1 "gcc-12" '-').1, (pySplit1 "gcc-12" '-').2, "22.04",
       tagOf "syzkaller" "gcc-12", ""⟩ rfl rfl
  exact h.2 ⟨"user", "group", 1000, 1000⟩ none false

/-- C10: for both `--build` and `--remove`, supplying the flag without a
compiler argument parses to the value "all", exactly as if "all" had been
supplied, and "all" selects the full compiler set for the batch operation. -/
theorem C10_flag_default_all :
    parseOptFlag true none = some "all" ∧
    parseOptFlag true none = parseOptFlag true (some "all") ∧
    compilers_for "all" = COMPILER_METADATA.map (fun p => p.1) ∧
    compilers_for ((parseOptFlag true none).getD "") = COMPILER_METADATA.map (fun p => p.1) :=
  ⟨rfl, rfl, rfl, rfl⟩

/-- C1 counterexample: the image's short id "abc123" is non-empty, its
inspection exits 0 with empty output (the image vanished between lookup and
inspection) — and `rm` aborts with an assertion error instead of treating
the situation as success. -/
theorem C1_counterexample :
    ContainerImage.rm ["docker"] "docker" "gcc-12" (tagOf "syzkaller" "gcc-12") "abc123"
      ⟨⟨0, "\n", ""⟩, ⟨0, "", ""⟩, 0, ⟨0, "", ""⟩⟩ =
    .error "AssertionError: [-] ERROR: Looks like the image abc123 is already removed" := rfl

/-- C1 amended: when the current short id is non-empty but resolving it to a
full canonical id yields an empty string, `rm` raises an assertion error
("Looks like the image ... is already removed") and aborts; the race is not
treated as success. -/
theorem C1_rm_race_asserts (runtime_cmd : List String)
    (runtime compiler tag id : String) (env : RmEnv)
    (hid : id ≠ "") (h0 : env.inspectRes.returncode = 0)
    (hempty : pyStrip env.inspectRes.stdout = "") :
    ContainerImage.rm runtime_cmd runtime compiler tag id env =
      .error s!"AssertionError: [-] ERROR: Looks like the image {id} is already removed" := by
  simp [ContainerImage.rm, hid, h0, hempty]

/-- Witness for the amended C1. -/
theorem C1_witness :
    ContainerImage.rm ["docker"] "docker" "clang-9" (tagOf "fz" "clang-9") "deadbeef"
      ⟨⟨0, "  ", ""⟩, ⟨0, "", ""⟩, 0, ⟨0, "", ""⟩⟩ =
      .error "AssertionError: [-] ERROR: Looks like the image deadbeef is already removed" := by
  have h := C1_rm_race_asserts ["docker"] "docker" "clang-9" (tagOf "fz" "clang-9")
      "deadbeef" ⟨⟨0, "  ", ""⟩, ⟨0, "", ""⟩, 0, ⟨0, "", ""⟩⟩ (by decide) rfl (by decide)
  exact h.trans rfl

/-- C5 counterexample: when `docker ps` fails with a permission error, the
sudo prefix is adopted while the only command ever executed is the original
probe — no retried `sudo docker ps` query is issued, contradicting the claim
that the elevated prefix is adopted only if a retried query succeeds. -/
theorem C5_counterexample :
    identify_runtime_cmd "docker" true ⟨1, "", "got permission denied while trying"⟩ =
      (.ok ["sudo", "docker"], [["docker", "ps"]]) ∧
    ["sudo", "docker", "ps"] ∉
      (identify_runtime_cmd "docker" true ⟨1, "", "got permission denied while trying"⟩).2 := by
  exact ⟨rfl, by decide⟩

/-- C5 amended: the no-op probe `<engine> ps` is run once; exit 0 adopts
[engineName]; a failure with a permission error on the default engine adopts
[sudo, engineName] immediately without re-running the probe; any other
failure, or absence of the engine executable, is a fatal exit with a
diagnostic. -/
theorem C5_probe_resolution (runtime : String) (installed : Bool) (out : ProcResult) :
    (installed = false →
      identify_runtime_cmd runtime installed out =
        (.error "[-] ERROR: The container runtime is not installed", [])) ∧
    (installed = true → out.returncode = 0 →
      identify_runtime_cmd runtime installed out = (.ok [runtime], [[runtime, "ps"]])) ∧
    (installed = true → out.returncode ≠ 0 → runtime = "docker" →
      pyIn "permission denied" out.stderr = true →
      identify_runtime_cmd runtime installed out = (.ok ["sudo", runtime], [[runtime, "ps"]])) ∧
    (installed = true → out.returncode ≠ 0 →
      ¬(runtime = "docker" ∧ pyIn "permission denied" out.stderr = true) →
      isError (identify_runtime_cmd runtime installed out).1 = true ∧
      (identify_runtime_cmd runtime installed out).2 = [[runtime, "ps"]]) := by
  refine ⟨fun h => by simp [identify_runtime_cmd, h],
    fun h h0 => by simp [identify_runtime_cmd, h, h0],
    fun h h0 hd hp => by simp [identify_runtime_cmd, h, h0, hd, hp],
    fun h h0 hnp => by simp [identify_runtime_cmd, isError, h, h0, hnp]⟩

/-- Witness for the amended C5 at the permission-denied probe. -/
theorem C5_witness :
    identify_runtime_cmd "docker" true ⟨1, "", "xy permission denied z"⟩ =
      (.ok ["sudo", "docker"], [["docker", "ps"]]) := by
  have h := (C5_probe_resolution "docker" true ⟨1, "", "xy permission denied z"⟩).2.2.1
      rfl (by decide) rfl (by decide)
  rw [h]

/-- A freshly built image is the first the engine lists for its tag. -/
theorem find_idW_addBuilt (w : World) (tag : String) :
    find_idW (w.addBuilt tag) tag = (w.fresh tag).1 := by
  simp [find_idW, World.addBuilt, World.imageIds]

/-- C2: build is idempotent — when the tag already resolves to a non-empty
id, `build` reports the existing id and returns without issuing any build
invocation, and after any successful `build` a second `build` issues no
build invocation and changes nothing, so two successive calls perform
exactly the build invocations of the first (exactly one when the image was
absent). -/
theorem C2_build_idempotent (os : OsInfo) (fuzzer : String) (quiet : Bool)
    (deps : Option String) (w : World) (compiler : String)
    (hc : (lookupMeta compiler).isSome)
    (hfresh : ∀ t, (w.fresh t).1 ≠ "") :
    (find_idW w (tagOf fuzzer compiler) ≠ "" →
      ∃ r, buildOpW os fuzzer quiet deps w compiler = .ok r ∧
        r.world = w ∧ r.img.id = find_idW w (tagOf fuzzer compiler) ∧
        s!"\nThe container image for {fuzzer}-{compiler} exists: {r.img.id}" ∈ r.printed ∧
        r.issued.filter isBuildC = []) ∧
    (∀ r, buildOpW os fuzzer quiet deps w compiler = .ok r →
      (find_idW w (tagOf fuzzer compiler) = "" →
        (r.issued.filter isBuildC).length = 1) ∧
      ∃ r2, buildOpW os fuzzer quiet deps r.world compiler = .ok r2 ∧
        r2.world = r.world ∧ r2.img.id = r.img.id ∧
        r2.issued.filter isBuildC = [] ∧
        ((r.issued ++ r2.issued).filter isBuildC).length =
          (r.issued.filter isBuildC).length) := by
  obtain ⟨u, hu⟩ := Option.isSome_iff_exists.mp hc
  by_cases hid : find_idW w (tagOf fuzzer compiler) = ""
  · refine ⟨fun h => absurd hid h, fun r hr => ?_⟩
    by_cases hbo : w.buildOk (tagOf fuzzer compiler)
    · have hb : buildOpW os fuzzer quiet deps w compiler =
          .ok ⟨w.addBuilt (tagOf fuzzer compiler),
               ⟨compiler, (pySplit1 compiler '-').1, (pySplit1 compiler '-').2, u,
                tagOf fuzzer compiler,
                find_idW (w.addBuilt (tagOf fuzzer compiler)) (tagOf fuzzer compiler)⟩,
               [s!"\nBuilding container image for {compiler} (Ubuntu {u})"] ++
                 (if quiet then ["[!] INFO: Quiet mode, please wait..."] else []),
               [.imagesQ (tagOf fuzzer compiler),
                .buildC (buildArgsFor os
                  ⟨compiler, (pySplit1 compiler '-').1, (pySplit1 compiler '-').2, u,
                   tagOf fuzzer compiler, ""⟩ deps quiet),
                .imagesQ (tagOf fuzzer compiler)]⟩ := by
        simp [buildOpW, cImageInit, hid, hu, hbo]
      rw [hb] at hr
      cases hr
      have hne : find_idW (w.addBuilt (tagOf fuzzer compiler)) (tagOf fuzzer compiler) ≠ "" := by
        rw [find_idW_addBuilt]; exact hfresh _
      have hb2 : buildOpW os fuzzer quiet deps (w.addBuilt (tagOf fuzzer compiler)) compiler =
          .ok ⟨w.addBuilt (tagOf fuzzer compiler),
               ⟨compiler, (pySplit1 compiler '-').1, (pySplit1 compiler '-').2, u,
                tagOf fuzzer compiler,
                find_idW (w.addBuilt (tagOf fuzzer compiler)) (tagOf fuzzer compiler)⟩,
               [s!"\nThe container image for {fuzzer}-{compiler} exists: {find_idW (w.addBuilt (tagOf fuzzer compiler)) (tagOf fuzzer compiler)}"],
               [.imagesQ (tagOf fuzzer compiler)]⟩ := by
        simp [buildOpW, cImageInit, hu, hne]
      refine ⟨fun _ => by simp [isBuildC], ⟨_, hb2, rfl, rfl, by simp [isBuildC], ?_⟩⟩
      simp [List.filter_append, isBuildC]
    · have hb : buildOpW os fuzzer quiet deps w compiler =
          .error (cpeMsg (buildArgsFor os
            ⟨compiler, (pySplit1 compiler '-').1, (pySplit1 compiler '-').2, u,
             tagOf fuzzer compiler, ""⟩ deps quiet ++ ["."])) := by
        simp [buildOpW, cImageInit, hid, hu, hbo]
      rw [hb] at hr
      cases hr
  · have hb : buildOpW os fuzzer quiet deps w compiler =
        .ok ⟨w, ⟨compiler, (pySplit1 compiler '-').1, (pySplit1 compiler '-').2, u,
                 tagOf fuzzer compiler, find_idW w (tagOf fuzzer compiler)⟩,
             [s!"\nThe container image for {fuzzer}-{compiler} exists: {find_idW w (tagOf fuzzer compiler)}"],
             [.imagesQ (tagOf fuzzer compiler)]⟩ := by
      simp [buildOpW, cImageInit, hu, hid]
    refine ⟨fun _ => ⟨_, hb, rfl, rfl, by simp, by simp [isBuildC]⟩, fun r hr => ?_⟩
    rw [hb] at hr
    cases hr
    refine ⟨fun h => absurd h hid, ⟨_, hb, rfl, rfl, by simp [isBuildC], ?_⟩⟩
    simp [List.filter_append, isBuildC]

/-- Witness for C2: a world already holding an image for the tag — the build
issues no build invocation. -/
theorem C2_witness :
    (buildOpW ⟨"u", "g", 0, 0⟩ "fz" false none
        ⟨[⟨tagOf "fz" "gcc-12", "aa", "ff"⟩], [], fun _ => true, fun _ => ("ns", "nf"),
         true, 0, ""⟩ "gcc-12").map (fun r => r.issued.filter isBuildC) = .ok [] := by
  obtain ⟨r, hr, -, -, -, hf⟩ :=
    (C2_build_idempotent ⟨"u", "g", 0, 0⟩ "fz" false none
      ⟨[⟨tagOf "fz" "gcc-12", "aa", "ff"⟩], [], fun _ => true, fun _ => ("ns", "nf"),
       true, 0, ""⟩ "gcc-12" (by decide) (fun _ => of_decide_eq_true rfl)).1 (by decide)
  rw [hr]
  simp [Except.map, hf]

/-- C3: removing an image whose full id is referenced by at least one
container never issues the force-remove command, prints a warning, leaves
the engine state unchanged, and the image id re-resolves to the same
non-empty id afterward. -/
theorem C3_rm_in_use_safe (fuzzer : String) (w : World) (compiler : String) (fid : String)
    (hc : (lookupMeta compiler).isSome)
    (hwf : ∀ i ∈ w.images, i.fullId ≠ "")
    (hid : find_idW w (tagOf fuzzer compiler) ≠ "")
    (hins : inspectW w (find_idW w (tagOf fuzzer compiler)) = some fid)
    (hbusy : w.containersOf fid ≠ []) :
    ∃ r, rmOpW fuzzer w compiler = .ok r ∧
      r.world = w ∧
      r.issued.filter isRmiC = [] ∧
      s!"[!] WARNING: Removing the image {find_idW w (tagOf fuzzer compiler)} failed, some containers use it"
        ∈ r.printed ∧
      r.img.id = find_idW w (tagOf fuzzer compiler) ∧
      r.img.id ≠ "" := by
  obtain ⟨u, hu⟩ := Option.isSome_iff_exists.mp hc
  have hfid : fid ≠ "" := by
    obtain ⟨i, hfind⟩ : ∃ i,
        w.images.find? (fun i => i.shortId = find_idW w (tagOf fuzzer compiler)) = some i := by
      cases hf : w.images.find? (fun i => i.shortId = find_idW w (tagOf fuzzer compiler)) with
      | none => rw [inspectW, hf] at hins; simp at hins
      | some i => exact ⟨i, rfl⟩
    have himem := List.mem_of_find?_eq_some hfind
    have hfull : i.fullId = fid := by rw [inspectW, hfind] at hins; simpa using hins
    rw [← hfull]
    exact hwf i himem
  have hb : rmOpW fuzzer w compiler =
      .ok ⟨w, ⟨compiler, (pySplit1 compiler '-').1, (pySplit1 compiler '-').2, u,
               tagOf fuzzer compiler, find_idW w (tagOf fuzzer compiler)⟩,
           [s!"\nRemoving container image {find_idW w (tagOf fuzzer compiler)} for {compiler}",
            s!"[!] WARNING: Removing the image {find_idW w (tagOf fuzzer compiler)} failed, some containers use it"],
           [.imagesQ (tagOf fuzzer compiler),
            .inspectQ (find_idW w (tagOf fuzzer compiler)),
            .psAncestorQ fid,
            .imagesQ (tagOf fuzzer compiler)]⟩ := by
    simp [rmOpW, cImageInit, hu, hid, hins, hfid, hbusy]
  exact ⟨_, hb, rfl, by simp [isRmiC], by simp, rfl, hid⟩

/-- Witness for C3: one image, one container using it. -/
theorem C3_witness :
    (rmOpW "fz" ⟨[⟨tagOf "fz" "gcc-12", "aa", "ff"⟩], [("c1", "ff")], fun _ => true,
        fun _ => ("ns", "nf"), true, 0, ""⟩ "gcc-12").map
      (fun r => (r.issued.filter isRmiC, r.img.id)) = .ok ([], "aa") := by
  obtain ⟨r, hr, -, hrmi, -, hid2, -⟩ :=
    C3_rm_in_use_safe "fz"
      ⟨[⟨tagOf "fz" "gcc-12", "aa", "ff"⟩], [("c1", "ff")], fun _ => true,
       fun _ => ("ns", "nf"), true, 0, ""⟩ "gcc-12" "ff"
      (by decide) (by decide) (by decide) (by decide) (by decide)
  rw [hr]
  simp [Except.map, hrmi, hid2]
  decide

/-- A non-erroring `Except` computation yields a value. -/
theorem exists_ok_of_not_isError {α : Type} (e : Except String α)
    (h : isError e = false) : ∃ r, e = .ok r := by
  cases e with
  | error m => simp [isError] at h
  | ok r => exact ⟨r, rfl⟩

/-- The compilers attempted by a batch build form an initial segment of the
requested list (an abort stops the iteration). -/
theorem build_attempted_take (os : OsInfo) (fuzzer : String) (quiet : Bool)
    (deps : Option String) :
    ∀ (cs : List String) (w : World),
      (build_imagesAux os fuzzer quiet deps cs w).1 =
        cs.take (build_imagesAux os fuzzer quiet deps cs w).1.length
  | [], _ => rfl
  | c :: cs, w => by
    cases h : buildOpW os fuzzer quiet deps w c with
    | error e => simp [build_imagesAux, h]
    | ok r =>
      have ih := build_attempted_take os fuzzer quiet deps cs r.world
      simp only [build_imagesAux, h, List.length_cons, List.take_succ_cons]
      exact congrArg (c :: ·) ih

/-- A batch build that completes attempted every requested compiler. -/
theorem build_attempted_all (os : OsInfo) (fuzzer : String) (quiet : Bool)
    (deps : Option String) :
    ∀ (cs : List String) (w w' : World),
      (build_imagesAux os fuzzer quiet deps cs w).2.2 = .ok w' →
      (build_imagesAux os fuzzer quiet deps cs w).1 = cs
  | [], _, _ => fun _ => rfl
  | c :: cs, w, w' => by
    intro hok
    cases h : buildOpW os fuzzer quiet deps w c with
    | error e => rw [build_imagesAux, h] at hok; cases hok
    | ok r =>
      have ih := build_attempted_all os fuzzer quiet deps cs r.world w'
        (by simpa [build_imagesAux, h] using hok)
      simp [build_imagesAux, h, ih]

/-- A build failure on the compiler at the head of the remaining batch stops
the iteration: no later compiler is attempted. -/
theorem build_failure_stops (os : OsInfo) (fuzzer : String) (quiet : Bool)
    (deps : Option String) (c : String) (cs : List String) (w : World)
    (h : isError (buildOpW os fuzzer quiet deps w c) = true) :
    (build_imagesAux os fuzzer quiet deps (c :: cs) w).1 = [c] := by
  cases hb : buildOpW os fuzzer quiet deps w c with
  | error e => simp [build_imagesAux, hb]
  | ok r => rw [hb] at h; simp [isError] at h

/-- A successful `rm` leaves the engine state unchanged or removes exactly
the image with the inspected short id. -/
theorem rmOpW_ok_world (fuzzer : String) (w : World) (c : String) (r : OpRes)
    (h : rmOpW fuzzer w c = .ok r) : r.world = w ∨ ∃ id, r.world = w.rmi id := by
  cases hm : cImageInit fuzzer w c with
  | error e => rw [rmOpW, hm] at h; cases h
  | ok img =>
    rw [rmOpW, hm] at h
    dsimp only at h
    by_cases h1 : img.id = ""
    · rw [if_pos h1] at h; cases h; exact Or.inl rfl
    · rw [if_neg h1] at h
      cases hin : inspectW w img.id with
      | none => rw [hin] at h; cases h
      | some full_id =>
        rw [hin] at h
        dsimp only at h
        by_cases h2 : full_id = ""
        · rw [if_pos h2] at h; cases h
        · rw [if_neg h2] at h
          by_cases h3 : w.containersOf full_id ≠ []
          · rw [if_pos h3] at h; cases h; exact Or.inl rfl
          · rw [if_neg h3] at h; cases h; exact Or.inr ⟨img.id, rfl⟩

/-- Operation `rm` preserves the engine invariant that every image has a non-empty
full id. -/
theorem rmOpW_preserves_wf (fuzzer : String) (w : World) (c : String) (r : OpRes)
    (hwf : ∀ i ∈ w.images, i.fullId ≠ "") (h : rmOpW fuzzer w c = .ok r) :
    ∀ i ∈ r.world.images, i.fullId ≠ "" := by
  rcases rmOpW_ok_world fuzzer w c r h with hw | ⟨id, hw⟩
  · rw [hw]; exact hwf
  · rw [hw]
    intro i hi
    exact hwf i (List.mem_of_mem_filter hi)

/-- A non-empty `find_idW` result is the short id of a listed image with the
queried tag. -/
theorem find_idW_mem (w : World) (tag : String) (h : find_idW w tag ≠ "") :
    ∃ i ∈ w.images, i.tag = tag ∧ i.shortId = find_idW w tag := by
  unfold find_idW World.imageIds at h ⊢
  cases hl : w.images.filter (fun i => i.tag = tag) with
  | nil => rw [hl] at h; simp at h
  | cons a as =>
    have ha : a ∈ w.images.filter (fun i => i.tag = tag) := by
      rw [hl]; exact List.mem_cons_self a as
    have hmem := List.mem_filter.mp ha
    exact ⟨a, hmem.1, by simpa using hmem.2, rfl⟩

/-- Under the engine invariant, `rm` never aborts: every branch reaches a
normal return. -/
theorem rmOpW_total (fuzzer : String) (w : World) (c : String)
    (hc : (lookupMeta c).isSome) (hwf : ∀ i ∈ w.images, i.fullId ≠ "") :
    isError (rmOpW fuzzer w c) = false := by
  obtain ⟨u, hu⟩ := Option.isSome_iff_exists.mp hc
  by_cases hid : find_idW w (tagOf fuzzer c) = ""
  · simp [rmOpW, cImageInit, hu, hid, isError]
  · obtain ⟨i, himem, htag, hsid⟩ := find_idW_mem w (tagOf fuzzer c) hid
    have hfind : (w.images.find? (fun j => j.shortId = find_idW w (tagOf fuzzer c))).isSome :=
      List.find?_isSome.mpr ⟨i, himem, by simp [hsid]⟩
    obtain ⟨j, hj⟩ := Option.isSome_iff_exists.mp hfind
    have hins : inspectW w (find_idW w (tagOf fuzzer c)) = some j.fullId := by
      rw [inspectW, hj]; rfl
    have hjfull : j.fullId ≠ "" := hwf j (List.mem_of_find?_eq_some hj)
    by_cases hbusy : w.containersOf j.fullId = []
    · simp [rmOpW, cImageInit, hu, hid, hins, hjfull, hbusy, isError]
    · simp [rmOpW, cImageInit, hu, hid, hins, hjfull, hbusy, isError]

/-- A batch remove under the engine invariant attempts every requested
compiler and returns, with `fail_cnt` counting exactly the compilers whose
image is still resolvable after their remove attempt. -/
theorem remove_batch_spec (fuzzer : String) :
    ∀ (cs : List String) (w : World),
      (∀ i ∈ w.images, i.fullId ≠ "") → (∀ c ∈ cs, (lookupMeta c).isSome) →
      (remove_imagesAux fuzzer cs w).1 = cs ∧
      ∃ w' n ids, (remove_imagesAux fuzzer cs w).2.2 = .ok (w', n, ids) ∧
        ids.length = cs.length ∧
        n = (ids.filter (fun i => i ≠ "")).length ∧
        (∀ i ∈ w'.images, i.fullId ≠ "")
  | [], w, hwf, _ => ⟨rfl, w, 0, [], rfl, rfl, rfl, hwf⟩
  | c :: cs, w, hwf, hcs => by
    obtain ⟨r, hr⟩ := exists_ok_of_not_isError _
      (rmOpW_total fuzzer w c (hcs c (List.mem_cons_self c cs)) hwf)
    have hwf' := rmOpW_preserves_wf fuzzer w c r hwf hr
    obtain ⟨hatt, w', n, ids, hres, hlen, hn, hwf''⟩ :=
      remove_batch_spec fuzzer cs r.world hwf'
        (fun d hd => hcs d (List.mem_cons_of_mem c hd))
    refine ⟨by simp [remove_imagesAux, hr, hatt],
            w', (if r.img.id ≠ "" then 1 else 0) + n, r.img.id :: ids,
            by simp [remove_imagesAux, hr, hres], by simp [hlen], ?_, hwf''⟩
    by_cases hne : r.img.id = ""
    · simp [hne, hn]
    · simp [hne, hn, Nat.add_comm]

/-- C4: in batch mode a build failure on the compiler reached aborts the
batch (the attempted compilers are an initial segment, all of them only when
the batch completes, and a failing head stops the iteration immediately),
whereas batch remove attempts every compiler and reports an aggregate count
equal to the number of images still resolvable after their remove
attempt. -/
theorem C4_batch_asymmetry (os : OsInfo) (fuzzer : String) (quiet : Bool)
    (deps : Option String) (cs : List String) (w : World)
    (hwf : ∀ i ∈ w.images, i.fullId ≠ "")
    (hcs : ∀ c ∈ cs, (lookupMeta c).isSome) :
    ((build_imagesAux os fuzzer quiet deps cs w).1 =
        cs.take (build_imagesAux os fuzzer quiet deps cs w).1.length) ∧
    (∀ w', (build_imagesAux os fuzzer quiet deps cs w).2.2 = .ok w' →
        (build_imagesAux os fuzzer quiet deps cs w).1 = cs) ∧
    (∀ c' cs' v, isError (buildOpW os fuzzer quiet deps v c') = true →
        (build_imagesAux os fuzzer quiet deps (c' :: cs') v).1 = [c']) ∧
    (remove_imagesAux fuzzer cs w).1 = cs ∧
    (∃ w' n ids, (remove_imagesAux fuzzer cs w).2.2 = .ok (w', n, ids) ∧
        ids.length = cs.length ∧ n = (ids.filter (fun i => i ≠ "")).length) := by
  obtain ⟨h1, w', n, ids, h2, h3, h4, -⟩ := remove_batch_spec fuzzer cs w hwf hcs
  exact ⟨build_attempted_take os fuzzer quiet deps cs w,
         fun v h => build_attempted_all os fuzzer quiet deps cs w v h,
         fun c' cs' v h => build_failure_stops os fuzzer quiet deps c' cs' v h,
         h1, w', n, ids, h2, h3, h4⟩

/-- C9 counterexample: `--deps` supplied with an empty value together with
`--list` and no `--build` is accepted — Python's truthiness check
`if args.deps:` skips the guard, main reaches the listing, exits 0 and
issues runtime queries instead of aborting with a configuration error. -/
theorem C9_counterexample :
    (⟨false, false, true, none, false, none, none, some ""⟩ : ParsedArgs).deps ≠ none ∧
    truthy (⟨false, false, true, none, false, none, none, some ""⟩ : ParsedArgs).build = false ∧
    mainW ⟨"u", "g", 0, 0⟩ ⟨false, false, true, none, false, none, none, some ""⟩
        ⟨[], [], fun _ => true, fun _ => ("a", "b"), true, 0, ""⟩ =
      ⟨.ok 0, [.probe, .listAllQ]⟩ :=
  ⟨by decide, rfl, rfl⟩

/-- C9 amended: if `--quiet` is specified without `--build`, or `--deps` is
specified with a non-empty value without `--build` (an empty `--deps` value
is falsy and treated as not specified), the process aborts before issuing
any runtime query or image operation. -/
theorem C9_quiet_deps_guard (os : OsInfo) (args : ParsedArgs) (w : World)
    (h : (args.quiet = true ∨ truthy args.deps = true) ∧ truthy args.build = false) :
    (mainW os args w).issued = [] ∧ (mainW os args w).result ≠ .ok 0 := by
  obtain ⟨h1, h2⟩ := h
  delta mainW
  by_cases c1 : (args.podman && args.docker) = true
  · rw [if_pos c1]; exact ⟨rfl, by simp⟩
  · rw [if_neg c1]
    by_cases c2 : (!(args.list || truthy args.build || truthy args.remove)) = true
    · rw [if_pos c2]; exact ⟨rfl, by simp⟩
    · rw [if_neg c2]
      by_cases c3 : (if args.list then 1 else 0) + (if truthy args.build then 1 else 0) +
          (if truthy args.remove then 1 else 0) > 1
      · rw [if_pos c3]; exact ⟨rfl, by simp⟩
      · rw [if_neg c3]
        by_cases c4 : (truthy args.build && !truthy args.fuzzer) = true
        · rw [if_pos c4]; exact ⟨rfl, by simp⟩
        · rw [if_neg c4]
          by_cases c5 : (truthy args.remove && !truthy args.fuzzer) = true
          · rw [if_pos c5]; exact ⟨rfl, by simp⟩
          · rw [if_neg c5]
            rcases h1 with hq | hd
            · rw [if_pos (show (args.quiet && !truthy args.build) = true by simp [hq, h2])]
              exact ⟨rfl, by simp⟩
            · by_cases c6 : (args.quiet && !truthy args.build) = true
              · rw [if_pos c6]; exact ⟨rfl, by simp⟩
              · rw [if_neg c6,
                  if_pos (show (truthy args.deps && !truthy args.build) = true by simp [hd, h2])]
                exact ⟨rfl, by simp⟩

/-- Witness for the amended C9: `--quiet` with `--list` and no `--build`. -/
theorem C9_witness :
    (mainW ⟨"u", "g", 0, 0⟩ ⟨false, false, true, none, true, none, none, none⟩
        ⟨[], [], fun _ => true, fun _ => ("a", "b"), true, 0, ""⟩).issued = [] ∧
    (mainW ⟨"u", "g", 0, 0⟩ ⟨false, false, true, none, true, none, none, none⟩
        ⟨[], [], fun _ => true, fun _ => ("a", "b"), true, 0, ""⟩).result ≠ .ok 0 :=
  C9_quiet_deps_guard ⟨"u", "g", 0, 0⟩ ⟨false, false, true, none, true, none, none, none⟩
    ⟨[], [], fun _ => true, fun _ => ("a", "b"), true, 0, ""⟩ ⟨Or.inl rfl, rfl⟩

/-- Witness for C4: batch remove over two compilers, the first in use, still
attempts both. -/
theorem C4_witness :
    (remove_imagesAux "fz" ["gcc-12", "clang-9"]
      ⟨[⟨tagOf "fz" "gcc-12", "aa", "ff"⟩], [("c1", "ff")], fun _ => true,
       fun _ => ("ns", "nf"), true, 0, ""⟩).1 = ["gcc-12", "clang-9"] :=
  (C4_batch_asymmetry ⟨"u", "g", 0, 0⟩ "fz" false none ["gcc-12", "clang-9"]
    ⟨[⟨tagOf "fz" "gcc-12", "aa", "ff"⟩], [("c1", "ff")], fun _ => true,
     fun _ => ("ns", "nf"), true, 0, ""⟩ (by decide) (by decide)).2.2.2.1

end ManageImages
